import Mathlib

/-!
Shallow embedding of the MetaFunction full-text resolution engine
(`src/utils/full_text_resolver.py`, `src/resolvers/pdf_extractor.py`,
`src/app.py`) and proofs about the properties of that code.

Python values are modelled as follows: `str` as `String`, `None`-able
values as `Option`, exceptions as an explicit `Outcome` sum, dictionaries
with a fixed key set as structures whose absent keys are `none`.
Network-facing adapter functions are treated as black boxes: each call
site's outcome is a parameter of an environment record, so the theorems
quantify over every possible adapter behaviour.
-/

set_option maxRecDepth 4000

set_option maxHeartbeats 1000000

/-- Outcome of calling a Python function that may raise: either a returned
value or a raised exception carrying a message. -/
inductive Outcome (α : Type) where
  | ok (value : α) : Outcome α
  | raise (msg : String) : Outcome α
deriving DecidableEq, Repr

/-- Python truthiness of an optional string: `None` and `""` are falsy. -/
def truthy : Option String → Bool
  | none => false
  | some s => !s.isEmpty

/-- `needle` occurs as a contiguous substring of `hay`
(Python `needle in hay` on strings). -/
def hasSub (needle : List Char) : List Char → Bool
  | [] => needle.isEmpty
  | c :: rest => needle.isPrefixOf (c :: rest) || hasSub needle rest

/-- The fixed section-marker vocabulary of `is_full_text`
(full_text_resolver.py lines 565-575). -/
def fullTextMarkers : List String :=
  ["introduction", "methods", "results", "discussion", "conclusion",
   "references", "materials and methods", "figure 1", "table 1"]

/-- Number of distinct markers of the vocabulary occurring in the
lowercased text (`sum(1 for marker in full_text_markers if marker in text_lower)`). -/
def markerCount (l : List Char) : Nat :=
  (fullTextMarkers.filter (fun m => hasSub m.data (l.map Char.toLower))).length

/-- Embedding of `is_full_text` (full_text_resolver.py lines 555-581):
empty text is not full text; text longer than 4000 characters is; otherwise
at least 3 distinct section markers must occur in the lowercased text. -/
def is_full_text (s : String) : Bool :=
  if s.data.isEmpty then false
  else if 4000 < s.data.length then true
  else 3 ≤ markerCount s.data

/-- The ranges of Unicode general category Nd (decimal digit), Unicode
15.0, each a run of ten consecutive codepoints (first, last).  Python's
`re` matches `\d` in a `str` pattern (default Unicode semantics) exactly
on this category. -/
def ndRanges : List (Nat × Nat) :=
  [(0x0030, 0x0039), (0x0660, 0x0669), (0x06F0, 0x06F9), (0x07C0, 0x07C9),
   (0x0966, 0x096F), (0x09E6, 0x09EF), (0x0A66, 0x0A6F), (0x0AE6, 0x0AEF),
   (0x0B66, 0x0B6F), (0x0BE6, 0x0BEF), (0x0C66, 0x0C6F), (0x0CE6, 0x0CEF),
   (0x0D66, 0x0D6F), (0x0DE6, 0x0DEF), (0x0E50, 0x0E59), (0x0ED0, 0x0ED9),
   (0x0F20, 0x0F29), (0x1040, 0x1049), (0x1090, 0x1099), (0x17E0, 0x17E9),
   (0x1810, 0x1819), (0x1946, 0x194F), (0x19D0, 0x19D9), (0x1A80, 0x1A89),
   (0x1A90, 0x1A99), (0x1B50, 0x1B59), (0x1BB0, 0x1BB9), (0x1C40, 0x1C49),
   (0x1C50, 0x1C59), (0xA620, 0xA629), (0xA8D0, 0xA8D9), (0xA900, 0xA909),
   (0xA9D0, 0xA9D9), (0xA9F0, 0xA9F9), (0xAA50, 0xAA59), (0xABF0, 0xABF9),
   (0xFF10, 0xFF19), (0x104A0, 0x104A9), (0x10D30, 0x10D39),
   (0x11066, 0x1106F), (0x110F0, 0x110F9), (0x11136, 0x1113F),
   (0x111D0, 0x111D9), (0x112F0, 0x112F9), (0x11450, 0x11459),
   (0x114D0, 0x114D9), (0x11650, 0x11659), (0x116C0, 0x116C9),
   (0x11730, 0x11739), (0x118E0, 0x118E9), (0x11950, 0x11959),
   (0x11C50, 0x11C59), (0x11D50, 0x11D59), (0x11DA0, 0x11DA9),
   (0x11F50, 0x11F59), (0x16A60, 0x16A69), (0x16AC0, 0x16AC9),
   (0x16B50, 0x16B59), (0x1D7CE, 0x1D7FF), (0x1E140, 0x1E149),
   (0x1E2F0, 0x1E2F9), (0x1E4F0, 0x1E4F9), (0x1E950, 0x1E959),
   (0x1FBF0, 0x1FBF9)]

/-- Python's `\d` in a `str` pattern: any Unicode decimal digit
(category Nd). -/
def pyDigit (c : Char) : Bool :=
  ndRanges.any (fun r => r.1 ≤ c.toNat && c.toNat ≤ r.2)

/-- A character of the DOI regex class `[-._;()/:A-Z0-9]` under `re.I`:
the literal punctuation, the literal `0-9` range (ASCII digits — a class
range, not `\d`), and the `A-Z` range case-insensitively, which under
Python's IGNORECASE matches `a-z`/`A-Z` plus the documented extras
'İ' (U+0130), 'ı' (U+0131), 'ſ' (U+017F) and the Kelvin sign (U+212A). -/
def doiClassChar (c : Char) : Bool :=
  c = '-' || c = '.' || c = '_' || c = ';' || c = '(' || c = ')' ||
  c = '/' || c = ':' || c.isAlpha || c.isDigit ||
  c = '\u0130' || c = '\u0131' || c = '\u017F' || c = '\u212A'

/-- The DOI pattern body `10\.\d{4,9}/[-._;()/:A-Z0-9]+` matched against a
whole character list, `\d` being any Unicode decimal digit.  The digit run
after `10.` is maximal, so the match succeeds exactly when that run has
length 4..9 and is followed by `/` and a non-empty class-character tail. -/
def doiCore (l : List Char) : Bool :=
  match l with
  | a :: b :: c :: rest =>
    a = '1' && b = '0' && c = '.' &&
    (let ds := rest.takeWhile pyDigit
     let rest2 := rest.dropWhile pyDigit
     4 ≤ ds.length && ds.length ≤ 9 &&
       (match rest2 with
        | x :: tail => x = '/' && !tail.isEmpty && tail.all doiClassChar
        | [] => false))
  | _ => false

/-- The PMID pattern body `\d{7,9}` matched against a whole character
list, `\d` being any Unicode decimal digit. -/
def pmidCore (l : List Char) : Bool :=
  7 ≤ l.length && l.length ≤ 9 && l.all pyDigit

/-- Python `re.match(p ++ "$", s)` semantics for an anchored pattern: `$`
matches at the end of the string or just before a newline that is the last
character. -/
def pyFullMatch (core : List Char → Bool) (s : String) : Bool :=
  core s.data ||
    (!s.data.isEmpty && s.data.getLast? = some '\n' && core s.data.dropLast)

/-- Embedding of `validate_pmid` (full_text_resolver.py lines 47-51):
`re.match(r"^\d{7,9}$", pmid) is not None`. -/
def validate_pmid (pmid : String) : Bool :=
  pyFullMatch pmidCore pmid

/-- Embedding of `validate_doi` (full_text_resolver.py lines 54-58):
`re.match(r"^10\.\d{4,9}/[-._;()/:A-Z0-9]+$", doi, re.I) is not None`. -/
def validate_doi (doi : String) : Bool :=
  pyFullMatch doiCore doi

/-- One entry of the resolver's access log
(`{"source": ..., "success": ..., "message": ...}`). -/
structure LogEntry where
  source : String
  success : Bool
  message : String
deriving DecidableEq, Repr

/-- The dictionary returned by `resolve_full_text`. -/
structure ResolveResult where
  text : Option String
  source : Option String
  is_full_text : Bool
  access_logs : List LogEntry
deriving DecidableEq, Repr

/-- Python `max(first :: rest, key=lambda x: len(x[0]))`: fold keeping the
current best, replacing it only on a strictly longer text, so the first
maximal element wins ties. -/
def maxByLen (first : String × String) (rest : List (String × String)) :
    String × String :=
  rest.foldl (fun best x => if best.1.length < x.1.length then x else best) first

/-- `[(text, source) for text, source, is_ft in results if is_ft]`
(full_text_resolver.py line 1064 and line 1429). -/
def fullsList (results : List (String × String × Bool)) :
    List (String × String) :=
  (results.filter (fun r => r.2.2)).map (fun r => (r.1, r.2.1))

/-- `[(text, source) for text, source, is_ft in results if not is_ft]`
(full_text_resolver.py line 1065 and line 1430). -/
def abstractsList (results : List (String × String × Bool)) :
    List (String × String) :=
  (results.filter (fun r => !r.2.2)).map (fun r => (r.1, r.2.1))

/-- The result-selection tail of `resolve_full_text`
(full_text_resolver.py lines 1063-1093): longest full text if any full
text was collected, else longest abstract, else the no-content result;
the accumulated access log is returned in every case. -/
def processResults (results : List (String × String × Bool))
    (logs : List LogEntry) : ResolveResult :=
  match fullsList results with
  | f :: fs =>
    let p := maxByLen f fs
    ⟨some p.1, some p.2, true, logs⟩
  | [] =>
    match abstractsList results with
    | a :: l =>
      let p := maxByLen a l
      ⟨some p.1, some p.2, false, logs⟩
    | [] => ⟨none, none, false, logs⟩

/-- Environment of one `resolve_full_text` call: the caller's arguments and
the outcome of each network-facing helper at its unique call site.
`getPmcid` models `get_pmcid_from_pmid_or_doi(pmid, doi)` (line 907) and
`fetchPmc` models `fetch_pmc_fulltext(pmcid)` (line 909). -/
structure ResolverEnv where
  pmid : Option String
  doi : Option String
  title : Option String
  getPmcid : Outcome (Option String)
  fetchPmc : Outcome (Option String)
deriving DecidableEq, Repr

/-- Continuation of `resolve_full_text` after the PubMed Central block
(full_text_resolver.py lines 936 onward).  The very first statement of the
remaining cascade that is executed when a pmid or doi is present is
`fetch_from_source(...)` (line 938), and the name `fetch_from_source` is
defined nowhere in the repository, so that statement raises `NameError`
outside any `try`.  With neither identifier every guarded adapter block is
skipped, Unpaywall and SciHub are skipped (`if doi:`), the
`from utils.institutional_access import ...` statement raises
`ImportError` (the module lives under `resolvers/`, not `utils/`) and is
logged as unavailable, and the collected results are aggregated. -/
def afterPmc (env : ResolverEnv) (logs : List LogEntry)
    (results : List (String × String × Bool)) (trace : List String) :
    Outcome ResolveResult × List String :=
  if truthy env.pmid || truthy env.doi then
    (.raise "NameError: name fetch_from_source is not defined", trace)
  else
    (.ok (processResults results
      (logs ++ [⟨"Institutional Access", false, "Module not available"⟩])), trace)

/-- Embedding of `resolve_full_text` (full_text_resolver.py lines 895-1093)
instrumented with the list of network-facing helpers actually invoked.
The PubMed Central block (lines 905-934) runs first inside a `try`: a found
PMCID leads to a fetch; a fetched text classified as full text returns
immediately with a fresh one-entry access log; otherwise results and logs
are accumulated and control falls through to `afterPmc`. -/
def resolve_full_text (env : ResolverEnv) :
    Outcome ResolveResult × List String :=
  match env.getPmcid with
  | .raise e =>
    afterPmc env [⟨"PubMed Central", false, "Error: " ++ e⟩] []
      ["get_pmcid_from_pmid_or_doi"]
  | .ok pmcid =>
    if truthy pmcid then
      match env.fetchPmc with
      | .raise e =>
        afterPmc env [⟨"PubMed Central", false, "Error: " ++ e⟩] []
          ["get_pmcid_from_pmid_or_doi", "fetch_pmc_fulltext"]
      | .ok pmcText =>
        if truthy pmcText then
          let t := pmcText.getD ""
          if is_full_text t then
            (.ok ⟨some t, some "PubMed Central", true,
              [⟨"PubMed Central", true,
                "Retrieved " ++ toString t.length ++ " characters"⟩]⟩,
             ["get_pmcid_from_pmid_or_doi", "fetch_pmc_fulltext"])
          else
            afterPmc env
              [⟨"PubMed Central", true,
                "Retrieved " ++ toString t.length ++ " characters"⟩]
              [(t, "PubMed Central", false)]
              ["get_pmcid_from_pmid_or_doi", "fetch_pmc_fulltext"]
        else
          afterPmc env [⟨"PubMed Central", false, "No content returned"⟩] []
            ["get_pmcid_from_pmid_or_doi", "fetch_pmc_fulltext"]
    else
      afterPmc env [] [] ["get_pmcid_from_pmid_or_doi"]

/-- The metadata dictionary of `resolve_full_text_enhanced`; a key the code
has not written is `none`. -/
structure EnhMeta where
  doi : Option String
  pmid : Option String
  title : Option String
  has_full_text : Option Bool
  has_abstract : Option Bool
  source : Option String
  pmcid : Option String
  text_length : Option Nat
  error : Option String
  access_logs : Option (List LogEntry)
deriving DecidableEq, Repr

/-- Environment of one `resolve_full_text_enhanced` call: the caller's
arguments and the outcome of each adapter at its unique call site. -/
structure EnhEnv where
  pmid : Option String
  doi : Option String
  title : Option String
  titleSearch : Outcome (Option String × Option String)
  getPmcid : Outcome (Option String)
  fetchPmc : Outcome (Option String)
  europePmc : Outcome (Option String)
  pubmedAbstract : Outcome (Option String)
  journalSite : Outcome (Option String)
  biorxiv : Outcome (Option String)
deriving DecidableEq, Repr

/-- One iteration of the source loop of `resolve_full_text_enhanced`
(full_text_resolver.py lines 1411-1426): when the dispatch condition holds
the adapter is invoked; an exception is logged and skipped; a truthy text
is appended to the results labelled by the `is_full_text` classifier. -/
def enhSourceStep (o : Outcome (Option String)) (name : String)
    (callIt : Bool) (callName : String)
    (acc : List (String × String × Bool) × List String) :
    List (String × String × Bool) × List String :=
  if callIt then
    match o with
    | .raise _ => (acc.1, acc.2 ++ [callName])
    | .ok t =>
      if truthy t then
        let s := t.getD ""
        (acc.1 ++ [(s, name, is_full_text s)], acc.2 ++ [callName])
      else (acc.1, acc.2 ++ [callName])
  else acc

/-- The source loop and result aggregation of `resolve_full_text_enhanced`
(full_text_resolver.py lines 1403-1450).  Dispatch conditions follow the
`if`/`elif` chain of lines 1413-1420: "Europe PMC", "Journal Website" and
"BioRxiv" run when the (validated) doi is truthy; "PubMed Abstract" runs
when the pmid is truthy (called with the pmid) or, failing that, when the
doi is truthy (called with the doi). -/
def enhSources (env : EnhEnv) (doi2 pmid2 : Option String) (md : EnhMeta)
    (results0 : List (String × String × Bool)) (trace : List String) :
    (Option String × EnhMeta) × List String :=
  let acc1 := enhSourceStep env.europePmc "Europe PMC" (truthy doi2)
    "fetch_fulltext_europe_pmc" (results0, trace)
  let acc2 := enhSourceStep env.pubmedAbstract "PubMed Abstract"
    (truthy pmid2 || truthy doi2) "fetch_pubmed_abstract" acc1
  let acc3 := enhSourceStep env.journalSite "Journal Website" (truthy doi2)
    "fetch_from_journal_site" acc2
  let acc4 := enhSourceStep env.biorxiv "BioRxiv" (truthy doi2)
    "fetch_biorxiv_html" acc3
  match fullsList acc4.1 with
  | f :: fs =>
    let p := maxByLen f fs
    ((some p.1,
      { md with has_full_text := some true, source := some p.2,
                text_length := some p.1.length }), acc4.2)
  | [] =>
    match abstractsList acc4.1 with
    | a :: l =>
      let p := maxByLen a l
      ((some p.1,
        { md with has_full_text := some false, has_abstract := some true,
                  source := some p.2, text_length := some p.1.length }),
       acc4.2)
    | [] => ((none, md), acc4.2)

/-- `resolve_full_text_enhanced` after identifier validation and title
search (full_text_resolver.py lines 1372-1450): PMCID lookup, the PubMed
Central attempt with its full-text short-circuit return (lines 1386-1401),
then the source loop and aggregation. -/
def enhAfterTitle (env : EnhEnv) (doi2 pmid2 : Option String) (md1 : EnhMeta)
    (trace0 : List String) : (Option String × EnhMeta) × List String :=
  let step :=
    if truthy pmid2 || truthy doi2 then
      match env.getPmcid with
      | .raise _ =>
        ((none : Option String), md1, trace0 ++ ["get_pmcid_from_pmid_or_doi"])
      | .ok c =>
        if truthy c then
          (c, { md1 with pmcid := c }, trace0 ++ ["get_pmcid_from_pmid_or_doi"])
        else (c, md1, trace0 ++ ["get_pmcid_from_pmid_or_doi"])
    else (none, md1, trace0)
  match step with
  | (pmcid, md2, trace1) =>
    if truthy pmcid then
      match env.fetchPmc with
      | .raise _ =>
        enhSources env doi2 pmid2 md2 [] (trace1 ++ ["fetch_pmc_fulltext"])
      | .ok t =>
        if truthy t then
          let s := t.getD ""
          if is_full_text s then
            ((some s,
              { md2 with has_full_text := some true,
                         source := some "PubMed Central",
                         text_length := some s.length }),
             trace1 ++ ["fetch_pmc_fulltext"])
          else
            enhSources env doi2 pmid2 md2 [(s, "PubMed Central", is_full_text s)]
              (trace1 ++ ["fetch_pmc_fulltext"])
        else
          enhSources env doi2 pmid2 md2 [] (trace1 ++ ["fetch_pmc_fulltext"])
    else enhSources env doi2 pmid2 md2 [] trace1

/-- Embedding of `resolve_full_text_enhanced`
(full_text_resolver.py lines 1331-1455), instrumented with the invoked
adapter call list.  The body initialises the metadata dictionary, nulls
identifiers that fail validation (metadata keeps the originals), runs the
title search when only a title is truthy (`found or current` merging,
metadata updated), and continues in `enhAfterTitle`.  The whole body is
wrapped in `try/except`; the only statement able to raise to that handler
is the title search, which produces the `(None, {"error", "pmid", "doi"})`
return of line 1455. -/
def resolve_full_text_enhanced (env : EnhEnv) :
    (Option String × EnhMeta) × List String :=
  let md0 : EnhMeta :=
    { doi := env.doi, pmid := env.pmid, title := env.title,
      has_full_text := some false, has_abstract := none, source := none,
      pmcid := none, text_length := none, error := none, access_logs := none }
  let doi1 := match env.doi with
    | some d => if !d.isEmpty && !validate_doi d then none else some d
    | none => none
  let pmid1 := match env.pmid with
    | some p => if !p.isEmpty && !validate_pmid p then none else some p
    | none => none
  if truthy env.title && !(truthy doi1 || truthy pmid1) then
    match env.titleSearch with
    | .raise e =>
      ((none,
        { doi := doi1, pmid := pmid1, title := none, has_full_text := none,
          has_abstract := none, source := none, pmcid := none,
          text_length := none, error := some e, access_logs := none }),
       ["search_paper_by_title"])
    | .ok (fd, fp) =>
      let doi2 := if truthy fd then fd else doi1
      let pmid2 := if truthy fp then fp else pmid1
      enhAfterTitle env doi2 pmid2 { md0 with doi := doi2, pmid := pmid2 }
        ["search_paper_by_title"]
  else
    enhAfterTitle env doi1 pmid1 md0 []

/-- Embedding of `add_to_cache` (app.py lines 309-315) over the module
level `query_cache` `OrderedDict`, modelled as an association list whose
head is the oldest (least recently inserted) entry and whose tail end is
the most recent.  An existing key is popped and re-inserted at the end; a
new key at capacity first evicts the oldest entry (`popitem(last=False)`). -/
def add_to_cache (key val : String) (maxSize : Nat)
    (cache : List (String × String)) : List (String × String) :=
  if cache.any (fun e => e.1 == key) then
    cache.eraseP (fun e => e.1 == key) ++ [(key, val)]
  else if maxSize ≤ cache.length then
    cache.drop 1 ++ [(key, val)]
  else
    cache ++ [(key, val)]

/-- The cache consultation step of the `chat` route (app.py lines 532-538):
on a hit (`cache_key in query_cache` and the cache not ignored) the stored
value is read with plain indexing — which does not reorder an
`OrderedDict` — and returned; on a miss the model is queried and the fresh
reply stored via `add_to_cache` with the default bound 100. -/
def chatCacheStep (ignoreCache : Bool) (key fresh : String)
    (cache : List (String × String)) : String × List (String × String) :=
  if !ignoreCache && cache.any (fun e => e.1 == key) then
    (((cache.find? (fun e => e.1 == key)).map Prod.snd).getD "", cache)
  else
    (fresh, add_to_cache key fresh 100 cache)

/-- Environment of one `extract_text_from_pdf_bytes` call
(pdf_extractor.py): which imports of the module prologue (lines 12-33)
succeeded, the outcome of each extraction library wrapper on the given
bytes, and the outcome of the OCR fallback (`Outcome.ok` carries the per
page recognised texts; `Outcome.raise` covers both `ImportError` of the
OCR libraries and any OCR failure, which the code handles identically by
falling through). -/
structure PdfEnv where
  pdfplumberLoaded : Bool
  fitzLoaded : Bool
  pdfminerLoaded : Bool
  plumber : Outcome (Option String)
  pymupdf : Outcome (Option String)
  pdfminerRes : Outcome (Option String)
  ocr : Outcome (List String)
deriving DecidableEq, Repr

/-- The module-level `pdf_libraries` list built by the import prologue
(pdf_extractor.py lines 12-33): records `"pdfplumber"`, `"pymupdf"`,
`"pdfminer"` for each import that succeeded. -/
def pdf_libraries (env : PdfEnv) : List String :=
  (if env.pdfplumberLoaded then ["pdfplumber"] else []) ++
  (if env.fitzLoaded then ["pymupdf"] else []) ++
  (if env.pdfminerLoaded then ["pdfminer"] else [])

/-- The module-global namespace of pdf_extractor.py as queried by
`... in globals()`: the plain imports of lines 1-9, the names bound by the
three guarded imports — `import pdfplumber` binds `pdfplumber`,
`import fitz` binds `fitz`, and `from pdfminer.high_level import
extract_text as pdfminer_extract_text` binds only `pdfminer_extract_text`
— plus `pdf_libraries` and the module's function names. -/
def pdfExtractorGlobals (env : PdfEnv) : List String :=
  ["io", "os", "logging", "requests", "re", "time", "tempfile",
   "urlparse", "urljoin", "subprocess", "pdf_libraries"] ++
  (if env.pdfplumberLoaded then ["pdfplumber"] else []) ++
  (if env.fitzLoaded then ["fitz"] else []) ++
  (if env.pdfminerLoaded then ["pdfminer_extract_text"] else []) ++
  ["extract_with_pdfplumber", "extract_with_pymupdf", "extract_with_pdfminer",
   "extract_text_from_pdf_bytes", "extract_text_with_external_tools",
   "extract_text_from_pdf_url", "extract_text_from_pdf_url_advanced",
   "download_pdf_to_temp"]

/-- Python `str.strip()`: drop leading and trailing whitespace. -/
def pyStrip (s : String) : String :=
  ⟨((s.data.dropWhile Char.isWhitespace).reverse.dropWhile
      Char.isWhitespace).reverse⟩

/-- Result of calling one `extract_with_*` wrapper (pdf_extractor.py lines
36-73): each wrapper catches every exception internally and returns `None`,
so a raising library contributes `None` to the loop. -/
def runLibrary (o : Outcome (Option String)) : Option String :=
  match o with
  | .raise _ => none
  | .ok t => t

/-- The method loop of `extract_text_from_pdf_bytes` (pdf_extractor.py
lines 92-98): each method's result overwrites `text`; a truthy result whose
stripped length exceeds 200 is returned at once (first component `some`);
otherwise the loop ends with the last value of `text`. -/
def tryMethods : List (Option String) → Option String →
    Option String × Option String
  | [], text => (none, text)
  | m :: ms, _ =>
    match m with
    | some t =>
      if !t.isEmpty && 200 < (pyStrip t).length then (some t, some t)
      else tryMethods ms (some t)
    | none => tryMethods ms none

/-- The extraction-method list built by `extract_text_from_pdf_bytes`
(pdf_extractor.py lines 79-89) from `"..." in globals()` membership tests. -/
def pdfMethods (env : PdfEnv) : List (Option String) :=
  let gs := pdfExtractorGlobals env
  (if gs.contains "pdfplumber" then [runLibrary env.plumber] else []) ++
  (if gs.contains "fitz" then [runLibrary env.pymupdf] else []) ++
  (if gs.contains "pdfminer" then [runLibrary env.pdfminerRes] else [])

/-- Embedding of `extract_text_from_pdf_bytes` (pdf_extractor.py lines
76-117): run the method loop (with `text` initialised to `""`), then the
OCR fallback whose pages are joined with newlines; on OCR import failure
or error the current `text` is returned. -/
def extract_text_from_pdf_bytes (env : PdfEnv) : Option String :=
  match tryMethods (pdfMethods env) (some "") with
  | (some t, _) => some t
  | (none, text) =>
    match env.ocr with
    | .raise _ => text
    | .ok pages => some (String.intercalate "\n" pages)

/-- Environment of one `extract_text_with_external_tools` call
(pdf_extractor.py lines 120-177): the byte count of the input and the
outcome of each command-line tool attempt (`Outcome.ok` carries the text
read back from the output file; `Outcome.raise` covers a failing or
missing command). -/
structure ExtEnv where
  pdfBytesLen : Nat
  pdftotext : Outcome String
  pdf2txt : Outcome String
deriving DecidableEq, Repr

/-- One command-line tool attempt (pdf_extractor.py lines 135-148 and
151-164): a raised `SubprocessError`/`FileNotFoundError` is caught and the
attempt abandoned; a read-back text is accepted when truthy with stripped
length above 200. -/
def toolAttempt (o : Outcome String) : Option String :=
  match o with
  | .raise _ => none
  | .ok t => if !t.isEmpty && 200 < (pyStrip t).length then some t else none

/-- Embedding of `extract_text_with_external_tools` (pdf_extractor.py
lines 120-177): inputs shorter than 1000 bytes are rejected, then
`pdftotext` and `pdf2txt.py` are attempted in order; `None` when neither
attempt is accepted. -/
def extract_text_with_external_tools (env : ExtEnv) : Option String :=
  if env.pdfBytesLen < 1000 then none
  else
    match toolAttempt env.pdftotext with
    | some t => some t
    | none =>
      match toolAttempt env.pdf2txt with
      | some t => some t
      | none => none

/-- The external-tool fallback of `extract_text_from_pdf_url_advanced`
(pdf_extractor.py lines 326-328): the tools' text is returned when truthy. -/
def advancedExternalFallback (eenv : ExtEnv) : Option String :=
  match extract_text_with_external_tools eenv with
  | some s => if !s.isEmpty then some s else none
  | none => none

/-- The per-response extraction step of `extract_text_from_pdf_url_advanced`
(pdf_extractor.py lines 317-328): first `extract_text_from_pdf_bytes`, and
only when its result is falsy, `extract_text_with_external_tools`. -/
def advancedExtractionStep (penv : PdfEnv) (eenv : ExtEnv) : Option String :=
  match extract_text_from_pdf_bytes penv with
  | some s => if !s.isEmpty then some s else advancedExternalFallback eenv
  | none => advancedExternalFallback eenv

/-! Concrete inputs used by the closed evaluations below. -/

/-- A synthetic 5000-character text. -/
def text5000 : String := String.mk (List.replicate 5000 'z')

/-- A 200-character string containing the markers "introduction",
"methods" and "results" and no other marker. -/
def text200three : String :=
  "introduction methods results" ++ String.mk (List.replicate 172 'x')

/-- A 200-character string containing only the marker "introduction". -/
def text200one : String :=
  "introduction" ++ String.mk (List.replicate 188 'x')

/-- A short text the classifier labels full text through three markers. -/
def sampleFull : String := "introduction methods results"

/-- A 4100-character abstract, longer than the 4000-character threshold. -/
def bigAbstract : String := String.mk (List.replicate 4100 'a')

/-- All-adapters-fail environment for `resolve_full_text`: a pmid is
given, no PMCID is found, so the cascade reaches line 938. -/
def envAllFail : ResolverEnv :=
  { pmid := some "23851565", doi := none, title := none,
    getPmcid := .ok none, fetchPmc := .ok none }

/-- All-adapters-fail environment for `resolve_full_text_enhanced`:
a valid pmid, no PMCID, and every invoked source returns `None`. -/
def envAllFailEnh : EnhEnv :=
  { pmid := some "23851565", doi := none, title := none,
    titleSearch := .ok (none, none), getPmcid := .ok none,
    fetchPmc := .ok none, europePmc := .ok none, pubmedAbstract := .ok none,
    journalSite := .ok none, biorxiv := .ok none }

/-- Enhanced-resolver environment in which PubMed Central yields full
text on the first attempt. -/
def envPmcHit : EnhEnv :=
  { pmid := some "23851565", doi := none, title := none,
    titleSearch := .ok (none, none), getPmcid := .ok (some "PMC3737249"),
    fetchPmc := .ok (some sampleFull), europePmc := .ok none,
    pubmedAbstract := .ok none, journalSite := .ok none, biorxiv := .ok none }

/-- Enhanced-resolver environment in which only the PubMed-abstract
adapter succeeds, returning a 4100-character abstract. -/
def envBigAbstract : EnhEnv :=
  { pmid := some "23851565", doi := none, title := none,
    titleSearch := .ok (none, none), getPmcid := .ok none,
    fetchPmc := .ok none, europePmc := .ok none,
    pubmedAbstract := .ok (some bigAbstract), journalSite := .ok none,
    biorxiv := .ok none }

/-- A 300-character pdfminer output. -/
def pdfminerText : String := String.mk (List.replicate 300 'm')

/-- A 300-character PyMuPDF output. -/
def pymupdfText : String := String.mk (List.replicate 300 'f')

/-- A 300-character command-line tool output. -/
def toolText : String := String.mk (List.replicate 300 't')

/-- PDF environment: only the pdfminer import succeeded, and pdfminer
would extract 300 characters. -/
def envPdfminerOnly : PdfEnv :=
  { pdfplumberLoaded := false, fitzLoaded := false, pdfminerLoaded := true,
    plumber := .ok none, pymupdf := .ok none,
    pdfminerRes := .ok (some pdfminerText),
    ocr := .raise "ImportError: OCR libraries not available" }

/-- PDF environment: pdfplumber raises, PyMuPDF extracts 300 characters. -/
def envPlumberFails : PdfEnv :=
  { pdfplumberLoaded := true, fitzLoaded := true, pdfminerLoaded := false,
    plumber := .raise "parse error", pymupdf := .ok (some pymupdfText),
    pdfminerRes := .ok none,
    ocr := .raise "ImportError: OCR libraries not available" }

/-- PDF environment: every library returns `None` and OCR is unavailable. -/
def envAllLibsFail : PdfEnv :=
  { pdfplumberLoaded := true, fitzLoaded := true, pdfminerLoaded := true,
    plumber := .ok none, pymupdf := .ok none, pdfminerRes := .ok none,
    ocr := .raise "ImportError: OCR libraries not available" }

/-- PDF environment: every library returns `None` but OCR succeeds with
two pages. -/
def envOcrWorks : PdfEnv :=
  { pdfplumberLoaded := true, fitzLoaded := true, pdfminerLoaded := true,
    plumber := .ok none, pymupdf := .ok none, pdfminerRes := .ok none,
    ocr := .ok ["page one", "page two"] }

/-- External-tool environment: `pdftotext` succeeds with 300 characters. -/
def envToolsSucceed : ExtEnv :=
  { pdfBytesLen := 100000, pdftotext := .ok toolText, pdf2txt := .ok toolText }

/-- Result list of the spec's fallback-ordering scenario: an abstract-length
journal-site result discovered before a full-text-length Unpaywall result. -/
def resultsFallback : List (String × String × Bool) :=
  [("a short abstract", "Journal Site", false),
   ("introduction methods results discussion", "Unpaywall PDF", true)]

/-- A one-entry cache used by closed evaluations. -/
def cacheOne : List (String × String) := [("k1", "v1")]

/-! ## Theorems -/

theorem string_mk_length (l : List Char) : (⟨l⟩ : String).length = l.length := rfl

theorem string_mk_data (l : List Char) : (⟨l⟩ : String).data = l := rfl

/-- Helper: the branching of `is_full_text` collapses to a disjunction of
the length test and the marker-count test (the empty-text guard is
subsumed: an empty text fails both tests). -/
theorem is_full_text_eq (s : String) :
    is_full_text s =
      (decide (4000 < s.length) || decide (3 ≤ markerCount s.data)) := by
  obtain ⟨l⟩ := s
  cases l with
  | nil => decide
  | cons a t =>
    by_cases h4 : 4000 < (a :: t).length
    · simp [is_full_text, string_mk_length, string_mk_data, h4,
        List.isEmpty_cons]
    · simp [is_full_text, string_mk_length, string_mk_data, h4,
        List.isEmpty_cons]

theorem text5000_length : text5000.length = 5000 := by
  show (List.replicate 5000 'z').length = 5000
  exact List.length_replicate 5000 'z'

theorem is_full_text_text5000 : is_full_text text5000 = true := by
  have h : 4000 < text5000.length := by rw [text5000_length]; norm_num
  rw [is_full_text_eq, decide_eq_true h, Bool.true_or]

/-- C4: for every string, `is_full_text` returns true exactly when the
text is longer than 4000 characters or at least 3 distinct markers of the
fixed vocabulary occur case-insensitively in it; the 5000-character text,
the 200-character three-marker text and the 200-character one-marker text
classify as the claim states. -/
theorem is_full_text_spec :
    (∀ s : String,
      is_full_text s =
        (decide (4000 < s.length) || decide (3 ≤ markerCount s.data))) ∧
    text5000.length = 5000 ∧ is_full_text text5000 = true ∧
    text200three.length = 200 ∧ is_full_text text200three = true ∧
    text200one.length = 200 ∧ is_full_text text200one = false :=
  ⟨is_full_text_eq, text5000_length, is_full_text_text5000,
   by decide, by decide, by decide, by decide⟩

/-- Helper: `takeWhile`/`dropWhile` of a list made of a satisfying prefix,
a failing element and a tail. -/
theorem takeWhile_all_append {p : Char → Bool} (ds : List Char) (x : Char)
    (tl : List Char) (hds : ∀ c ∈ ds, p c = true) (hx : p x = false) :
    (ds ++ x :: tl).takeWhile p = ds ∧ (ds ++ x :: tl).dropWhile p = x :: tl := by
  induction ds with
  | nil => simp [List.takeWhile_cons, List.dropWhile_cons, hx]
  | cons a t ih =>
    have ha : p a = true := hds a (List.mem_cons_self a t)
    have iht := ih (fun c hc => hds c (List.mem_cons_of_mem a hc))
    simp [List.takeWhile_cons, List.dropWhile_cons, ha, iht.1, iht.2]

/-- Helper: the `\d{7,9}` body in predicate form. -/
theorem pmidCore_iff (l : List Char) :
    pmidCore l = true ↔
      7 ≤ l.length ∧ l.length ≤ 9 ∧ ∀ c ∈ l, pyDigit c = true := by
  simp [pmidCore, Bool.and_eq_true, List.all_eq_true, and_assoc]

/-- Helper: the `$`-before-trailing-newline half of `pyFullMatch`. -/
theorem ends_newline_iff (l : List Char) (core : List Char → Bool) :
    (!l.isEmpty && l.getLast? = some '\n' && core l.dropLast) = true ↔
      ∃ m, l = m ++ ['\n'] ∧ core m = true := by
  constructor
  · intro h
    simp only [Bool.and_eq_true, Bool.not_eq_true', decide_eq_true_eq] at h
    obtain ⟨⟨hne, hlast⟩, hcore⟩ := h
    have hne' : l ≠ [] := fun hl => by simp [hl] at hne
    refine ⟨l.dropLast, ?_, hcore⟩
    have hsplit := List.dropLast_append_getLast hne'
    rw [List.getLast?_eq_getLast l hne'] at hlast
    have hl : l.getLast hne' = '\n' := by injection hlast
    calc l = l.dropLast ++ [l.getLast hne'] := hsplit.symm
    _ = l.dropLast ++ ['\n'] := by rw [hl]
  · rintro ⟨m, rfl, hcore⟩
    simp [List.getLast?_concat, List.dropLast_concat, hcore]

/-- Helper: `pyFullMatch` in predicate form. -/
theorem pyFullMatch_iff (core : List Char → Bool) (s : String) :
    pyFullMatch core s = true ↔
      core s.data = true ∨ ∃ m, s.data = m ++ ['\n'] ∧ core m = true := by
  unfold pyFullMatch
  rw [Bool.or_eq_true, ends_newline_iff]

/-- Helper: the DOI pattern body in predicate form: `10.`, then 4 to 9
digits, then `/`, then a non-empty run of class characters. -/
theorem doiCore_iff (l : List Char) :
    doiCore l = true ↔
      ∃ ds tl : List Char,
        l = '1' :: '0' :: '.' :: (ds ++ '/' :: tl) ∧
        4 ≤ ds.length ∧ ds.length ≤ 9 ∧ (∀ c ∈ ds, pyDigit c = true) ∧
        tl ≠ [] ∧ ∀ c ∈ tl, doiClassChar c = true := by
  constructor
  · intro h
    rcases l with _ | ⟨a, _ | ⟨b, _ | ⟨c, rest⟩⟩⟩
    · simp [doiCore] at h
    · simp [doiCore] at h
    · simp [doiCore] at h
    · rcases hr2 : rest.dropWhile pyDigit with _ | ⟨x, tl⟩
      · rw [doiCore, hr2] at h
        simp at h
      · rw [doiCore, hr2] at h
        simp only [Bool.and_eq_true, decide_eq_true_eq, Bool.not_eq_true',
          List.all_eq_true] at h
        obtain ⟨⟨⟨ha, hb⟩, hc⟩, ⟨h4, h9⟩, ⟨hx, hemp⟩, hcls⟩ := h
        subst ha; subst hb; subst hc; subst hx
        refine ⟨rest.takeWhile pyDigit, tl, ?_, h4, h9,
          fun c hc => List.mem_takeWhile_imp hc, ?_, hcls⟩
        · conv_lhs => rw [← List.takeWhile_append_dropWhile pyDigit rest]
          rw [hr2]
        · intro hnil; rw [hnil] at hemp; simp at hemp
  · rintro ⟨ds, tl, rfl, h4, h9, hds, htl, hcls⟩
    have hsplit := takeWhile_all_append ds '/' tl hds (by decide)
    rw [doiCore, hsplit.2]
    simp only [hsplit.1, Bool.and_eq_true, decide_eq_true_eq,
      Bool.not_eq_true', List.all_eq_true]
    refine ⟨⟨⟨trivial, trivial⟩, trivial⟩, ⟨h4, h9⟩, ⟨trivial, ?_⟩, hcls⟩
    cases tl with
    | nil => exact absurd rfl htl
    | cons y ys => rfl

/-- Helper: `validate_pmid` in predicate form, Python `$` semantics
included. -/
theorem validate_pmid_iff (s : String) :
    validate_pmid s = true ↔
      (7 ≤ s.data.length ∧ s.data.length ≤ 9 ∧
        ∀ c ∈ s.data, pyDigit c = true) ∨
      ∃ m, s.data = m ++ ['\n'] ∧
        (7 ≤ m.length ∧ m.length ≤ 9 ∧ ∀ c ∈ m, pyDigit c = true) := by
  rw [show validate_pmid s = pyFullMatch pmidCore s from rfl, pyFullMatch_iff]
  simp only [pmidCore_iff]

/-- Helper: `validate_doi` in predicate form, Python `$` semantics
included. -/
theorem validate_doi_iff (s : String) :
    validate_doi s = true ↔
      (∃ ds tl : List Char,
        s.data = '1' :: '0' :: '.' :: (ds ++ '/' :: tl) ∧
        4 ≤ ds.length ∧ ds.length ≤ 9 ∧ (∀ c ∈ ds, pyDigit c = true) ∧
        tl ≠ [] ∧ ∀ c ∈ tl, doiClassChar c = true) ∨
      ∃ m, s.data = m ++ ['\n'] ∧
        ∃ ds tl : List Char,
          m = '1' :: '0' :: '.' :: (ds ++ '/' :: tl) ∧
          4 ≤ ds.length ∧ ds.length ≤ 9 ∧ (∀ c ∈ ds, pyDigit c = true) ∧
          tl ≠ [] ∧ ∀ c ∈ tl, doiClassChar c = true := by
  rw [show validate_doi s = pyFullMatch doiCore s from rfl, pyFullMatch_iff]
  simp only [doiCore_iff]

/-- C5 counterexample: Python's `$` anchor also matches just before a
trailing newline, so `validate_pmid` accepts `"1234567\n"`, a string
whose characters are not all digits, and `validate_doi` accepts
`"10.1038/nature12373\n"`, whose whole text does not match the DOI
pattern body. -/
theorem validators_newline_counterexample :
    validate_pmid "1234567\n" = true ∧
    ¬ (∀ c ∈ ("1234567\n" : String).data, pyDigit c = true) ∧
    validate_doi "10.1038/nature12373\n" = true ∧
    doiCore ("10.1038/nature12373\n" : String).data = false :=
  ⟨by decide, by decide, by decide, by decide⟩

/-- C5 amended: under Python's Unicode regex semantics — `\d` is any
Unicode decimal digit (category Nd), and the class `[-._;()/:A-Z0-9]`
under IGNORECASE also matches 'İ', 'ı', 'ſ' and the Kelvin sign —
`validate_doi` accepts exactly the strings whose whole text matches
`10\.\d{4,9}/[-._;()/:A-Z0-9]+` case-insensitively up to an optional
single trailing newline, and `validate_pmid` accepts exactly the strings
consisting solely of 7 to 9 Unicode decimal digits up to an optional
single trailing newline (the newline is a consequence of Python
`re.match` with a `$` anchor); the four example evaluations hold as
claimed, a PMID of seven Arabic-Indic digits validates, and a DOI tail
containing the Kelvin sign validates. -/
theorem validators_spec :
    (∀ s : String, validate_pmid s = true ↔
      (7 ≤ s.data.length ∧ s.data.length ≤ 9 ∧
        ∀ c ∈ s.data, pyDigit c = true) ∨
      ∃ m, s.data = m ++ ['\n'] ∧
        (7 ≤ m.length ∧ m.length ≤ 9 ∧ ∀ c ∈ m, pyDigit c = true)) ∧
    (∀ s : String, validate_doi s = true ↔
      (∃ ds tl : List Char,
        s.data = '1' :: '0' :: '.' :: (ds ++ '/' :: tl) ∧
        4 ≤ ds.length ∧ ds.length ≤ 9 ∧ (∀ c ∈ ds, pyDigit c = true) ∧
        tl ≠ [] ∧ ∀ c ∈ tl, doiClassChar c = true) ∨
      ∃ m, s.data = m ++ ['\n'] ∧
        ∃ ds tl : List Char,
          m = '1' :: '0' :: '.' :: (ds ++ '/' :: tl) ∧
          4 ≤ ds.length ∧ ds.length ≤ 9 ∧ (∀ c ∈ ds, pyDigit c = true) ∧
          tl ≠ [] ∧ ∀ c ∈ tl, doiClassChar c = true) ∧
    validate_doi "10.1038/nature12373" = true ∧
    validate_doi "not-a-doi" = false ∧
    validate_pmid "23851565" = true ∧
    validate_pmid "abc123" = false ∧
    validate_pmid "\u0661\u0662\u0663\u0664\u0665\u0666\u0667" = true ∧
    validate_doi "10.1038/nature\u212A" = true ∧
    (doiClassChar '\u0130' && doiClassChar '\u0131' &&
     doiClassChar '\u017F' && doiClassChar '\u212A') = true :=
  ⟨validate_pmid_iff, validate_doi_iff,
   by decide, by decide, by decide, by decide, by decide, by decide,
   by decide⟩

/-- Helper: the Python `max` fold returns an element of the list. -/
theorem maxByLen_mem (f : String × String) (rest : List (String × String)) :
    maxByLen f rest ∈ f :: rest := by
  induction rest generalizing f with
  | nil => simp [maxByLen]
  | cons x xs ih =>
    have h := ih (if f.1.length < x.1.length then x else f)
    simp only [maxByLen, List.foldl_cons] at h ⊢
    rcases List.mem_cons.mp h with h1 | h1
    · rw [h1]
      by_cases hc : f.1.length < x.1.length
      · simp [hc]
      · simp [hc]
    · exact List.mem_cons_of_mem f (List.mem_cons_of_mem x h1)

/-- Helper: the Python `max` fold dominates every element's length. -/
theorem maxByLen_ge (f : String × String) (rest : List (String × String)) :
    ∀ y ∈ f :: rest, y.1.length ≤ (maxByLen f rest).1.length := by
  induction rest generalizing f with
  | nil =>
    intro y hy
    rcases List.mem_cons.mp hy with h | h
    · rw [h]; exact le_refl _
    · simp at h
  | cons x xs ih =>
    intro y hy
    have key := ih (if f.1.length < x.1.length then x else f)
    simp only [maxByLen, List.foldl_cons] at key ⊢
    have hf : f.1.length ≤ (if f.1.length < x.1.length then x else f).1.length := by
      by_cases hc : f.1.length < x.1.length
      · rw [if_pos hc]; exact le_of_lt hc
      · rw [if_neg hc]
    have hx : x.1.length ≤ (if f.1.length < x.1.length then x else f).1.length := by
      by_cases hc : f.1.length < x.1.length
      · rw [if_pos hc]
      · rw [if_neg hc]; exact le_of_not_lt hc
    have hstep := key (if f.1.length < x.1.length then x else f)
      (List.mem_cons_self _ _)
    rcases List.mem_cons.mp hy with h | h
    · rw [h]; exact le_trans hf hstep
    · rcases List.mem_cons.mp h with h2 | h2
      · rw [h2]; exact le_trans hx hstep
      · exact key y (List.mem_cons_of_mem _ h2)

/-- Helper: membership in the full-text partition. -/
theorem mem_fullsList {results : List (String × String × Bool)}
    {t s : String} : (t, s) ∈ fullsList results ↔ (t, s, true) ∈ results := by
  simp only [fullsList, List.mem_map]
  constructor
  · rintro ⟨⟨a, b, c⟩, hm, heq⟩
    rw [List.mem_filter] at hm
    have h1 : a = t := congrArg Prod.fst heq
    have h2 : b = s := congrArg Prod.snd heq
    have h3 : c = true := hm.2
    subst h1; subst h2; subst h3
    exact hm.1
  · intro hm
    exact ⟨(t, s, true), List.mem_filter.mpr ⟨hm, rfl⟩, rfl⟩

/-- Helper: membership in the abstract-only partition. -/
theorem mem_abstractsList {results : List (String × String × Bool)}
    {t s : String} :
    (t, s) ∈ abstractsList results ↔ (t, s, false) ∈ results := by
  simp only [abstractsList, List.mem_map]
  constructor
  · rintro ⟨⟨a, b, c⟩, hm, heq⟩
    rw [List.mem_filter] at hm
    have h1 : a = t := congrArg Prod.fst heq
    have h2 : b = s := congrArg Prod.snd heq
    have h3 : c = false := by
      have := hm.2
      cases c
      · rfl
      · simp at this
    subst h1; subst h2; subst h3
    exact hm.1
  · intro hm
    exact ⟨(t, s, false), List.mem_filter.mpr ⟨hm, rfl⟩, rfl⟩

/-- Helper: `processResults` when the full-text partition is non-empty. -/
theorem processResults_full (results : List (String × String × Bool))
    (logs : List LogEntry) (f : String × String) (fs : List (String × String))
    (hfl : fullsList results = f :: fs) :
    processResults results logs =
      ⟨some (maxByLen f fs).1, some (maxByLen f fs).2, true, logs⟩ := by
  unfold processResults
  rw [hfl]

/-- Helper: `processResults` when only the abstract partition is
non-empty. -/
theorem processResults_abstract (results : List (String × String × Bool))
    (logs : List LogEntry) (a : String × String) (l : List (String × String))
    (hfl : fullsList results = []) (hab : abstractsList results = a :: l) :
    processResults results logs =
      ⟨some (maxByLen a l).1, some (maxByLen a l).2, false, logs⟩ := by
  unfold processResults
  rw [hfl, hab]

/-- Helper: an empty full-text partition from the absence of full-text
triples. -/
theorem fullsList_eq_nil {results : List (String × String × Bool)}
    (h : ∀ t s, ¬ (t, s, true) ∈ results) : fullsList results = [] := by
  rcases hfl : fullsList results with _ | ⟨⟨ft, fv⟩, fs⟩
  · rfl
  · exfalso
    have hm : (ft, fv) ∈ fullsList results := by
      rw [hfl]; exact List.mem_cons_self _ _
    exact h ft fv (mem_fullsList.mp hm)

/-- C3: whenever the cascade reaches the aggregation step, the result is
selected by partitioning: if any full-text triple was collected, the
returned result is a full-text triple of maximal text length; otherwise,
if any abstract triple was collected, the returned result is an abstract
triple of maximal text length — so a full-text result beats every
abstract-only result regardless of discovery position. -/
theorem cascade_selects_longest_full_text :
    ∀ (results : List (String × String × Bool)) (logs : List LogEntry),
      (∀ t s, (t, s, true) ∈ results →
        (processResults results logs).is_full_text = true ∧
        ∃ u v, (u, v, true) ∈ results ∧
          (processResults results logs).text = some u ∧
          (processResults results logs).source = some v ∧
          ∀ a b, (a, b, true) ∈ results → a.length ≤ u.length) ∧
      ((∀ t s, ¬ (t, s, true) ∈ results) →
        ∀ t s, (t, s, false) ∈ results →
        (processResults results logs).is_full_text = false ∧
        ∃ u v, (u, v, false) ∈ results ∧
          (processResults results logs).text = some u ∧
          (processResults results logs).source = some v ∧
          ∀ a b, (a, b, false) ∈ results → a.length ≤ u.length) := by
  intro results logs
  constructor
  · intro t s hmem
    have hf : (t, s) ∈ fullsList results := mem_fullsList.mpr hmem
    rcases hfl : fullsList results with _ | ⟨f, fs⟩
    · rw [hfl] at hf; simp at hf
    · rw [processResults_full results logs f fs hfl]
      refine ⟨rfl, (maxByLen f fs).1, (maxByLen f fs).2, ?_, rfl, rfl, ?_⟩
      · have hp : maxByLen f fs ∈ fullsList results := by
          rw [hfl]; exact maxByLen_mem f fs
        have : ((maxByLen f fs).1, (maxByLen f fs).2) ∈ fullsList results := by
          rw [Prod.mk.eta]; exact hp
        exact mem_fullsList.mp this
      · intro a b hab
        have hmem2 : (a, b) ∈ fullsList results := mem_fullsList.mpr hab
        rw [hfl] at hmem2
        exact maxByLen_ge f fs (a, b) hmem2
  · intro hnone t s hmem
    have hfl : fullsList results = [] := fullsList_eq_nil hnone
    have ha : (t, s) ∈ abstractsList results := mem_abstractsList.mpr hmem
    rcases hab : abstractsList results with _ | ⟨a, l⟩
    · rw [hab] at ha; simp at ha
    · rw [processResults_abstract results logs a l hfl hab]
      refine ⟨rfl, (maxByLen a l).1, (maxByLen a l).2, ?_, rfl, rfl, ?_⟩
      · have hp : maxByLen a l ∈ abstractsList results := by
          rw [hab]; exact maxByLen_mem a l
        have : ((maxByLen a l).1, (maxByLen a l).2) ∈ abstractsList results := by
          rw [Prod.mk.eta]; exact hp
        exact mem_abstractsList.mp this
      · intro u v huv
        have hmem2 : (u, v) ∈ abstractsList results := mem_abstractsList.mpr huv
        rw [hab] at hmem2
        exact maxByLen_ge a l (u, v) hmem2

/-- C3 witness: on the fallback-ordering scenario the full-text triple
discovered later wins over the abstract discovered first. -/
theorem cascade_selects_longest_full_text_witness :
    (processResults resultsFallback []).is_full_text = true ∧
    ∃ u v, (u, v, true) ∈ resultsFallback ∧
      (processResults resultsFallback []).text = some u ∧
      (processResults resultsFallback []).source = some v ∧
      ∀ a b, (a, b, true) ∈ resultsFallback → a.length ≤ u.length :=
  (cascade_selects_longest_full_text resultsFallback []).1
    "introduction methods results discussion" "Unpaywall PDF" (by decide)

/-- Helper: one `add_to_cache` step preserves the size bound. -/
theorem add_to_cache_length_le (key val : String) (maxSize : Nat)
    (cache : List (String × String)) (hms : 1 ≤ maxSize)
    (h : cache.length ≤ maxSize) :
    (add_to_cache key val maxSize cache).length ≤ maxSize := by
  unfold add_to_cache
  by_cases hin : cache.any (fun e => e.1 == key) = true
  · rw [if_pos hin, List.length_append]
    obtain ⟨e, hmem, hp⟩ := List.any_eq_true.mp hin
    rw [List.length_eraseP_of_mem hmem hp, List.length_singleton]
    have h1 : 1 ≤ cache.length := List.length_pos.mpr (by rintro rfl; simp at hmem)
    omega
  · rw [if_neg hin]
    by_cases hcap : maxSize ≤ cache.length
    · rw [if_pos hcap, List.length_append, List.length_drop,
        List.length_singleton]
      omega
    · rw [if_neg hcap, List.length_append, List.length_singleton]
      omega

/-- Helper: the bound holds after any insertion sequence from empty. -/
theorem cache_fold_bound (ops : List (String × String)) (maxSize : Nat)
    (hms : 1 ≤ maxSize) :
    (ops.foldl (fun c kv => add_to_cache kv.1 kv.2 maxSize c) []).length ≤
      maxSize := by
  suffices h : ∀ c : List (String × String), c.length ≤ maxSize →
      (ops.foldl (fun c kv => add_to_cache kv.1 kv.2 maxSize c) c).length ≤
        maxSize by
    exact h [] (by simp)
  induction ops with
  | nil => intro c hc; simpa using hc
  | cons op rest ih =>
    intro c hc
    simp only [List.foldl_cons]
    exact ih _ (add_to_cache_length_le op.1 op.2 maxSize c hms hc)

/-- Helper: re-inserting a present key keeps the size and moves the entry
to the most-recently-used end. -/
theorem add_to_cache_existing (key val : String) (maxSize : Nat)
    (cache : List (String × String))
    (hin : cache.any (fun e => e.1 == key) = true) :
    (add_to_cache key val maxSize cache).length = cache.length ∧
    (add_to_cache key val maxSize cache).getLast? = some (key, val) := by
  unfold add_to_cache
  rw [if_pos hin]
  obtain ⟨e, hmem, hp⟩ := List.any_eq_true.mp hin
  constructor
  · rw [List.length_append, List.length_eraseP_of_mem hmem hp,
      List.length_singleton]
    have h1 : 1 ≤ cache.length := List.length_pos.mpr (by rintro rfl; simp at hmem)
    omega
  · exact List.getLast?_concat _

/-- Helper: inserting a new key at capacity evicts exactly the oldest
entry. -/
theorem add_to_cache_evicts (key val : String) (maxSize : Nat)
    (cache : List (String × String))
    (hin : cache.any (fun e => e.1 == key) = false)
    (hcap : maxSize ≤ cache.length) :
    add_to_cache key val maxSize cache = cache.drop 1 ++ [(key, val)] := by
  unfold add_to_cache
  rw [if_neg (by simp [hin]), if_pos hcap]

/-- C6: the bounded query cache never exceeds `max_size` entries after any
sequence of `add_to_cache` operations from the empty cache; re-inserting a
present key keeps the size and moves the entry to the most-recently-used
end; and inserting a new key at capacity evicts exactly the
least-recently-used (oldest) entry. -/
theorem query_cache_lru :
    (∀ (ops : List (String × String)) (maxSize : Nat), 1 ≤ maxSize →
      (ops.foldl (fun c kv => add_to_cache kv.1 kv.2 maxSize c) []).length ≤
        maxSize) ∧
    (∀ (key val : String) (maxSize : Nat) (cache : List (String × String)),
      cache.any (fun e => e.1 == key) = true →
      (add_to_cache key val maxSize cache).length = cache.length ∧
      (add_to_cache key val maxSize cache).getLast? = some (key, val)) ∧
    (∀ (key val : String) (maxSize : Nat) (cache : List (String × String)),
      cache.any (fun e => e.1 == key) = false →
      maxSize ≤ cache.length →
      add_to_cache key val maxSize cache = cache.drop 1 ++ [(key, val)]) :=
  ⟨cache_fold_bound, add_to_cache_existing, add_to_cache_evicts⟩

/-- C6 witness: the three cache properties at concrete inputs. -/
theorem query_cache_lru_witness :
    ((([("a", "1"), ("b", "2"), ("c", "3")] : List (String × String)).foldl
        (fun c kv => add_to_cache kv.1 kv.2 2 c) []).length ≤ 2) ∧
    ((add_to_cache "k1" "v2" 100 cacheOne).length = cacheOne.length ∧
      (add_to_cache "k1" "v2" 100 cacheOne).getLast? = some ("k1", "v2")) ∧
    add_to_cache "k2" "v2" 1 cacheOne = cacheOne.drop 1 ++ [("k2", "v2")] :=
  ⟨query_cache_lru.1 [("a", "1"), ("b", "2"), ("c", "3")] 2 (by decide),
   query_cache_lru.2.1 "k1" "v2" 100 cacheOne (by decide),
   query_cache_lru.2.2 "k2" "v2" 1 cacheOne (by decide) (by decide)⟩

/-- C10: a cache hit during request handling returns the stored value and
leaves the cache — its keys, values and recency order — entirely
unchanged, so reads never update recency. -/
theorem chat_cache_hit_no_mutation :
    ∀ (key fresh : String) (cache : List (String × String))
      (entry : String × String),
      cache.find? (fun e => e.1 == key) = some entry →
      chatCacheStep false key fresh cache = (entry.2, cache) := by
  intro key fresh cache entry hfind
  have hp := List.find?_some hfind
  have hmem : entry ∈ cache := List.mem_of_find?_eq_some hfind
  have hany : cache.any (fun e => e.1 == key) = true :=
    List.any_eq_true.mpr ⟨entry, hmem, hp⟩
  unfold chatCacheStep
  simp [hany, hfind]

/-- C10 witness: a hit on a one-entry cache returns the stored value and
the unchanged cache. -/
theorem chat_cache_hit_no_mutation_witness :
    chatCacheStep false "k1" "fresh" cacheOne = ("v1", cacheOne) :=
  chat_cache_hit_no_mutation "k1" "fresh" cacheOne ("k1", "v1") (by decide)

/-- C1: with a pmid given and every adapter failing to produce content,
`resolve_full_text` does not return `(null, metadata)`: execution reaches
line 938 and raises `NameError` (the name `fetch_from_source` is defined
nowhere in the repository), which propagates to the caller; and
`resolve_full_text_enhanced`, which does return `(None, metadata)`, yields
a metadata dictionary containing no `access_logs` key at all. -/
theorem resolver_all_fail_behaviour :
    (resolve_full_text envAllFail).1 =
      .raise "NameError: name fetch_from_source is not defined" ∧
    (resolve_full_text_enhanced envAllFailEnh).1.1 = none ∧
    (resolve_full_text_enhanced envAllFailEnh).1.2.access_logs = none :=
  ⟨rfl, rfl, rfl⟩

/-- C2 counterexample: `resolve_full_text_enhanced` short-circuits on a
PubMed Central full-text hit — after two attempts (PMCID lookup, PMC
fetch) it returns the text with source "PubMed Central" — but the
returned metadata carries no access log of those attempts. -/
theorem short_circuit_missing_log :
    (resolve_full_text_enhanced envPmcHit).1.1 = some sampleFull ∧
    (resolve_full_text_enhanced envPmcHit).1.2.source = some "PubMed Central" ∧
    (resolve_full_text_enhanced envPmcHit).1.2.has_full_text = some true ∧
    (resolve_full_text_enhanced envPmcHit).2 =
      ["get_pmcid_from_pmid_or_doi", "fetch_pmc_fulltext"] ∧
    (resolve_full_text_enhanced envPmcHit).1.2.access_logs = none :=
  ⟨rfl, rfl, rfl, rfl, rfl⟩

/-- C2 amended: on a first-attempt PubMed Central full-text hit both
orchestrators return immediately with that text, source "PubMed Central"
and a full-text label, invoking no lower-priority adapter;
`resolve_full_text` returns the one-entry access log of the attempt made,
while `resolve_full_text_enhanced` returns metadata recording the source
but no access log. -/
theorem short_circuit_spec :
    (∀ (env : ResolverEnv) (c t : String),
      env.getPmcid = .ok (some c) → c.isEmpty = false →
      env.fetchPmc = .ok (some t) → t.isEmpty = false →
      is_full_text t = true →
      resolve_full_text env =
        (.ok ⟨some t, some "PubMed Central", true,
          [⟨"PubMed Central", true,
            "Retrieved " ++ toString t.length ++ " characters"⟩]⟩,
         ["get_pmcid_from_pmid_or_doi", "fetch_pmc_fulltext"])) ∧
    (∀ (p c t : String) (ts : Outcome (Option String × Option String))
       (eu pa js bx : Outcome (Option String)),
      p.isEmpty = false → validate_pmid p = true →
      c.isEmpty = false → t.isEmpty = false → is_full_text t = true →
      resolve_full_text_enhanced
        { pmid := some p, doi := none, title := none, titleSearch := ts,
          getPmcid := .ok (some c), fetchPmc := .ok (some t),
          europePmc := eu, pubmedAbstract := pa, journalSite := js,
          biorxiv := bx } =
        ((some t,
          { doi := none, pmid := some p, title := none,
            has_full_text := some true, has_abstract := none,
            source := some "PubMed Central", pmcid := some c,
            text_length := some t.length, error := none,
            access_logs := none }),
         ["get_pmcid_from_pmid_or_doi", "fetch_pmc_fulltext"])) := by
  constructor
  · intro env c t hg hc hf ht hft
    unfold resolve_full_text
    rw [hg, hf]
    simp [truthy, hc, ht, hft]
  · intro p c t ts eu pa js bx hp hv hc ht hft
    unfold resolve_full_text_enhanced enhAfterTitle
    simp [truthy, hp, hv, hc, ht, hft]

/-- C2 witness: the short-circuit equations at a concrete environment. -/
theorem short_circuit_spec_witness :
    resolve_full_text
      { pmid := some "23851565", doi := none, title := none,
        getPmcid := .ok (some "PMC3737249"),
        fetchPmc := .ok (some sampleFull) } =
      (.ok ⟨some sampleFull, some "PubMed Central", true,
        [⟨"PubMed Central", true,
          "Retrieved " ++ toString sampleFull.length ++ " characters"⟩]⟩,
       ["get_pmcid_from_pmid_or_doi", "fetch_pmc_fulltext"]) ∧
    resolve_full_text_enhanced
      { pmid := some "23851565", doi := none, title := none,
        titleSearch := .ok (none, none), getPmcid := .ok (some "PMC3737249"),
        fetchPmc := .ok (some sampleFull), europePmc := .ok none,
        pubmedAbstract := .ok none, journalSite := .ok none,
        biorxiv := .ok none } =
      ((some sampleFull,
        { doi := none, pmid := some "23851565", title := none,
          has_full_text := some true, has_abstract := none,
          source := some "PubMed Central", pmcid := some "PMC3737249",
          text_length := some sampleFull.length, error := none,
          access_logs := none }),
       ["get_pmcid_from_pmid_or_doi", "fetch_pmc_fulltext"]) :=
  ⟨short_circuit_spec.1
      { pmid := some "23851565", doi := none, title := none,
        getPmcid := .ok (some "PMC3737249"),
        fetchPmc := .ok (some sampleFull) }
      "PMC3737249" sampleFull rfl (by decide) rfl (by decide) (by decide),
   short_circuit_spec.2 "23851565" "PMC3737249" sampleFull
      (.ok (none, none)) (.ok none) (.ok none) (.ok none) (.ok none)
      (by decide) (by decide) (by decide) (by decide) (by decide)⟩

/-- Helper: in `resolve_full_text_enhanced`, a result fetched by the
PubMed-abstract adapter is labelled by the `is_full_text` classifier, not
forced to abstract. -/
theorem enhanced_pubmed_abstract_label (p t : String)
    (ts : Outcome (Option String × Option String))
    (fp eu js bx : Outcome (Option String))
    (hp : p.isEmpty = false) (hv : validate_pmid p = true)
    (ht : t.isEmpty = false) :
    resolve_full_text_enhanced
      { pmid := some p, doi := none, title := none, titleSearch := ts,
        getPmcid := .ok none, fetchPmc := fp, europePmc := eu,
        pubmedAbstract := .ok (some t), journalSite := js, biorxiv := bx } =
      ((some t,
        { doi := none, pmid := some p, title := none,
          has_full_text := some (is_full_text t),
          has_abstract := if is_full_text t then none else some true,
          source := some "PubMed Abstract", pmcid := none,
          text_length := some t.length, error := none,
          access_logs := none }),
       ["get_pmcid_from_pmid_or_doi", "fetch_pubmed_abstract"]) := by
  unfold resolve_full_text_enhanced enhAfterTitle enhSources enhSourceStep
  rcases hft : is_full_text t
  · simp [truthy, hp, hv, ht, hft, fullsList, abstractsList, maxByLen]
  · simp [truthy, hp, hv, ht, hft, fullsList, abstractsList, maxByLen]

/-- C9 counterexample: a 4100-character PubMed abstract is labelled full
text by `resolve_full_text_enhanced` and wins as full text with source
"PubMed Abstract" — it is not forced to `is_full_text = false`. -/
theorem pubmed_abstract_wins_as_full_text :
    4000 < bigAbstract.length ∧
    (resolve_full_text_enhanced envBigAbstract).1.2.has_full_text =
      some true ∧
    (resolve_full_text_enhanced envBigAbstract).1.2.source =
      some "PubMed Abstract" := by
  have hlen : bigAbstract.length = 4100 := by
    show (List.replicate 4100 'a').length = 4100
    exact List.length_replicate 4100 'a'
  have h4 : 4000 < bigAbstract.length := by rw [hlen]; norm_num
  have hft : is_full_text bigAbstract = true := by
    rw [is_full_text_eq, decide_eq_true h4, Bool.true_or]
  have hne : bigAbstract.isEmpty = false := by
    rw [Bool.eq_false_iff]
    intro hempty
    rw [(String.isEmpty_iff bigAbstract).mp hempty] at hlen
    simp at hlen
  have h2 : resolve_full_text_enhanced envBigAbstract =
      ((some bigAbstract,
        { doi := none, pmid := some "23851565", title := none,
          has_full_text := some (is_full_text bigAbstract),
          has_abstract := if is_full_text bigAbstract then none else some true,
          source := some "PubMed Abstract", pmcid := none,
          text_length := some bigAbstract.length, error := none,
          access_logs := none }),
       ["get_pmcid_from_pmid_or_doi", "fetch_pubmed_abstract"]) :=
    enhanced_pubmed_abstract_label "23851565" bigAbstract (.ok (none, none))
      (.ok none) (.ok none) (.ok none) (.ok none) (by decide) (by decide) hne
  refine ⟨h4, ?_, ?_⟩
  · rw [h2]; simp [hft]
  · rw [h2]

/-- C9 amended: in `resolve_full_text_enhanced` a PubMed-abstract result
is labelled by the `is_full_text` classifier like any other source — an
abstract over 4000 characters (or bearing 3 or more markers) is labelled
full text; only classifier-rejected abstracts serve as the abstract-only
fallback.  (The call registering PubMed Abstract with `is_full_text=False`
in `resolve_full_text` is unreachable: the undefined `fetch_from_source`
raises first.) -/
theorem pubmed_abstract_classifier_label :
    ∀ (p t : String) (ts : Outcome (Option String × Option String))
      (fp eu js bx : Outcome (Option String)),
      p.isEmpty = false → validate_pmid p = true → t.isEmpty = false →
      resolve_full_text_enhanced
        { pmid := some p, doi := none, title := none, titleSearch := ts,
          getPmcid := .ok none, fetchPmc := fp, europePmc := eu,
          pubmedAbstract := .ok (some t), journalSite := js,
          biorxiv := bx } =
        ((some t,
          { doi := none, pmid := some p, title := none,
            has_full_text := some (is_full_text t),
            has_abstract := if is_full_text t then none else some true,
            source := some "PubMed Abstract", pmcid := none,
            text_length := some t.length, error := none,
            access_logs := none }),
         ["get_pmcid_from_pmid_or_doi", "fetch_pubmed_abstract"]) :=
  fun p t ts fp eu js bx hp hv ht =>
    enhanced_pubmed_abstract_label p t ts fp eu js bx hp hv ht

/-- C9 witness: a short abstract without markers is labelled
`has_full_text = some false`, `has_abstract = some true`, source
"PubMed Abstract" — the spec's end-to-end fallback scenario. -/
theorem pubmed_abstract_classifier_label_witness :
    resolve_full_text_enhanced
      { pmid := some "23851565", doi := none, title := none,
        titleSearch := .ok (none, none), getPmcid := .ok none,
        fetchPmc := .ok none, europePmc := .ok none,
        pubmedAbstract := .ok (some "A short abstract."),
        journalSite := .ok none, biorxiv := .ok none } =
      ((some "A short abstract.",
        { doi := none, pmid := some "23851565", title := none,
          has_full_text := some (is_full_text "A short abstract."),
          has_abstract :=
            if is_full_text "A short abstract." then none else some true,
          source := some "PubMed Abstract", pmcid := none,
          text_length := some ("A short abstract." : String).length,
          error := none, access_logs := none }),
       ["get_pmcid_from_pmid_or_doi", "fetch_pubmed_abstract"]) :=
  pubmed_abstract_classifier_label "23851565" "A short abstract."
    (.ok (none, none)) (.ok none) (.ok none) (.ok none) (.ok none)
    (by decide) (by decide) (by decide)

/-- C7: the import prologue records pdfminer in `pdf_libraries`, but the
availability test of `extract_text_from_pdf_bytes` asks whether the name
`"pdfminer"` is a module global, and the statement
`from pdfminer.high_level import extract_text as pdfminer_extract_text`
binds only `pdfminer_extract_text`, so pdfminer is never invoked: with
only pdfminer importable and a 300-character pdfminer result, the function
returns `""` instead of that result.  The fallback from a raising first
library to a succeeding second library does hold for
pdfplumber/PyMuPDF. -/
theorem pdfminer_never_tried :
    pdf_libraries envPdfminerOnly = ["pdfminer"] ∧
    (pdfExtractorGlobals envPdfminerOnly).contains "pdfminer" = false ∧
    200 < (pyStrip pdfminerText).length ∧
    extract_text_from_pdf_bytes envPdfminerOnly = some "" ∧
    ¬ extract_text_from_pdf_bytes envPdfminerOnly = some pdfminerText ∧
    extract_text_from_pdf_bytes envPlumberFails = some pymupdfText :=
  ⟨by decide, by decide, by decide, by decide, by decide, by decide⟩

/-- C8 counterexample: with every library yielding nothing and OCR
unavailable, `extract_text_from_pdf_bytes` returns `None` without
consulting the external command-line tools, although
`extract_text_with_external_tools` would have succeeded with 300
characters on the same input. -/
theorem pdf_bytes_no_external_fallback :
    extract_text_from_pdf_bytes envAllLibsFail = none ∧
    extract_text_with_external_tools envToolsSucceed = some toolText :=
  ⟨by decide, by decide⟩

/-- Helper: a text accepted by one external-tool attempt is non-empty. -/
theorem toolAttempt_nonempty (o : Outcome String) (t : String)
    (h : toolAttempt o = some t) : t.isEmpty = false := by
  rcases o with v | m
  · have h' :
        (if (!v.isEmpty && decide (200 < (pyStrip v).length)) = true
         then some v else none) = some t := h
    by_cases hc : (!v.isEmpty && decide (200 < (pyStrip v).length)) = true
    · rw [if_pos hc] at h'
      injection h' with h'
      subst h'
      have := (Bool.and_eq_true _ _).mp hc
      simpa using this.1
    · rw [if_neg hc] at h'
      exact absurd h' (by simp)
  · have h' : (none : Option String) = some t := h
    exact absurd h' (by simp)

/-- Helper: a text returned by `extract_text_with_external_tools` is
non-empty. -/
theorem external_tools_nonempty (eenv : ExtEnv) (t : String)
    (h : extract_text_with_external_tools eenv = some t) :
    t.isEmpty = false := by
  unfold extract_text_with_external_tools at h
  by_cases hlen : eenv.pdfBytesLen < 1000
  · rw [if_pos hlen] at h; exact absurd h (by simp)
  · rw [if_neg hlen] at h
    rcases h1 : toolAttempt eenv.pdftotext with _ | t1
    · rw [h1] at h
      rcases h2 : toolAttempt eenv.pdf2txt with _ | t2
      · rw [h2] at h
        have h' : (none : Option String) = some t := h
        exact absurd h' (by simp)
      · rw [h2] at h
        have h' : some t2 = some t := h
        injection h' with h'
        subst h'
        exact toolAttempt_nonempty _ _ h2
    · rw [h1] at h
      have h' : some t1 = some t := h
      injection h' with h'
      subst h'
      exact toolAttempt_nonempty _ _ h1

/-- Helper: the advanced fallback step returns exactly the external
tools' result (the truthiness re-check never changes it, because a
returned tool text is non-empty). -/
theorem advancedExternalFallback_eq (eenv : ExtEnv) :
    advancedExternalFallback eenv = extract_text_with_external_tools eenv := by
  unfold advancedExternalFallback
  rcases het : extract_text_with_external_tools eenv with _ | s2
  · rfl
  · have hne := external_tools_nonempty eenv s2 het
    show (if (!s2.isEmpty) = true then some s2 else none) = some s2
    rw [hne]
    rfl

/-- C8 amended: when no library yields sufficient text,
`extract_text_from_pdf_bytes` falls back to OCR over every page, joining
all page results with newlines; when OCR is unavailable or fails it
returns the last library result (possibly empty or null) and never
consults the external command-line tools — those are invoked only by
`extract_text_from_pdf_url_advanced` when `extract_text_from_pdf_bytes`
produced no text, and that combination returns null only when the library
loop, OCR and both external tools all fail to produce text. -/
theorem pdf_extraction_fallback_chain :
    (∀ (env : PdfEnv) (pages : List String),
      env.ocr = .ok pages →
      (tryMethods (pdfMethods env) (some "")).1 = none →
      extract_text_from_pdf_bytes env =
        some (String.intercalate "\n" pages)) ∧
    (∀ (env : PdfEnv) (e : String),
      env.ocr = .raise e →
      (tryMethods (pdfMethods env) (some "")).1 = none →
      extract_text_from_pdf_bytes env =
        (tryMethods (pdfMethods env) (some "")).2) ∧
    (∀ (penv : PdfEnv) (eenv : ExtEnv),
      advancedExtractionStep penv eenv = none →
      (extract_text_from_pdf_bytes penv = none ∨
        extract_text_from_pdf_bytes penv = some "") ∧
      extract_text_with_external_tools eenv = none) ∧
    (∀ (penv : PdfEnv) (eenv : ExtEnv) (t : String),
      (extract_text_from_pdf_bytes penv = none ∨
        extract_text_from_pdf_bytes penv = some "") →
      extract_text_with_external_tools eenv = some t →
      advancedExtractionStep penv eenv = some t) := by
  refine ⟨?_, ?_, ?_, ?_⟩
  · intro env pages hocr h1
    rcases htm : tryMethods (pdfMethods env) (some "") with ⟨o, txt⟩
    have ho : o = none := by rw [htm] at h1; exact h1
    subst ho
    unfold extract_text_from_pdf_bytes
    rw [htm, hocr]
  · intro env e hocr h1
    rcases htm : tryMethods (pdfMethods env) (some "") with ⟨o, txt⟩
    have ho : o = none := by rw [htm] at h1; exact h1
    subst ho
    unfold extract_text_from_pdf_bytes
    rw [htm, hocr]
  · intro penv eenv h
    unfold advancedExtractionStep at h
    rw [advancedExternalFallback_eq] at h
    rcases heb : extract_text_from_pdf_bytes penv with _ | s
    · rw [heb] at h
      exact ⟨Or.inl rfl, h⟩
    · rw [heb] at h
      by_cases hs : s.isEmpty = true
      · have hs' : s = "" := (String.isEmpty_iff s).mp hs
        subst hs'
        have h' : extract_text_with_external_tools eenv = none := h
        exact ⟨Or.inr rfl, h'⟩
      · have hs' : s.isEmpty = false := Bool.eq_false_iff.mpr hs
        have h' : (if (!s.isEmpty) = true then some s
                   else extract_text_with_external_tools eenv) = none := h
        rw [hs'] at h'
        simp at h'
  · intro penv eenv t hb het
    unfold advancedExtractionStep
    rw [advancedExternalFallback_eq]
    rcases hb with hb | hb
    · rw [hb]; exact het
    · rw [hb]; exact het

/-- C8 witness: the OCR fallback joins page results, and the advanced URL
path falls back to external tools when the byte extractor produced no
text. -/
theorem pdf_extraction_fallback_chain_witness :
    extract_text_from_pdf_bytes envOcrWorks =
      some (String.intercalate "\n" ["page one", "page two"]) ∧
    extract_text_from_pdf_bytes envAllLibsFail =
      (tryMethods (pdfMethods envAllLibsFail) (some "")).2 ∧
    advancedExtractionStep envAllLibsFail envToolsSucceed = some toolText :=
  ⟨pdf_extraction_fallback_chain.1 envOcrWorks ["page one", "page two"]
      rfl (by decide),
   pdf_extraction_fallback_chain.2.1 envAllLibsFail
      "ImportError: OCR libraries not available" rfl (by decide),
   pdf_extraction_fallback_chain.2.2.2 envAllLibsFail envToolsSucceed
      toolText (Or.inl (by decide)) (by decide)⟩
